import Mathlib

/-!
Shallow embedding of the BookVerse inventory service business-logic layer
(`app/services.py`, `app/models.py`, `app/config.py`) and proofs about it.

Modelling conventions:
* UUIDs are modelled as natural numbers; `DbState.nextId` is a freshness
  counter standing in for `uuid4()`.
* Server timestamps (`func.now()`, `datetime.utcnow()`) are modelled by a
  logical clock `DbState.now` that advances on every mutating operation.
* Python integers are exact, so quantities and deltas are `Int`.
* A SQLAlchemy session is modelled by explicit state passing: every mutating
  service method takes a `DbState` and returns the updated `DbState`.
* `DECIMAL` prices are opaque to every claim; they are carried as `Int`.
-/

namespace BookVerse

/-- The configured low-stock threshold, `LOW_STOCK_THRESHOLD = 5`
(`app/config.py` line 538). -/
def LOW_STOCK_THRESHOLD : Int := 5

/-- The `books` table row (`app/models.py`, class `Book`). -/
structure Book where
  id : Nat
  title : String
  subtitle : Option String
  authors : List String
  genres : List String
  description : String
  price : Int
  cover_image_url : String
  rating : Option Int
  created_at : Nat
  updated_at : Nat
  is_active : Bool
deriving DecidableEq

/-- The `inventory_records` table row (`app/models.py`, class
`InventoryRecord`). -/
structure InventoryRecord where
  id : Nat
  book_id : Nat
  quantity_available : Int
  quantity_total : Int
  reorder_point : Int
  created_at : Nat
  updated_at : Nat
deriving DecidableEq

/-- The `stock_transactions` table row (`app/models.py`, class
`StockTransaction`). -/
structure StockTransaction where
  id : Nat
  book_id : Nat
  transaction_type : String
  quantity_change : Int
  notes : Option String
  timestamp : Nat
deriving DecidableEq

/-- The whole persistent state: the three tables, plus the id-freshness
counter and the logical clock of the modelling conventions. -/
structure DbState where
  books : List Book
  inventory : List InventoryRecord
  transactions : List StockTransaction
  nextId : Nat
  now : Nat
deriving DecidableEq

/-- The empty database (fresh schema, nothing seeded). -/
def DbState.empty : DbState :=
  { books := [], inventory := [], transactions := [], nextId := 0, now := 0 }

/-- Input schema `BookCreate` (`app/schemas.py`): required title, authors,
genres, description, price, cover image; optional subtitle. -/
structure BookCreate where
  title : String
  subtitle : Option String
  authors : List String
  genres : List String
  description : String
  price : Int
  cover_image_url : String
deriving DecidableEq

/-- Input schema `BookUpdate` (`app/schemas.py`): every field optional;
`none` models a field absent from the partial update. -/
structure BookUpdate where
  title : Option String := none
  subtitle : Option String := none
  authors : Option (List String) := none
  genres : Option (List String) := none
  description : Option String := none
  price : Option Int := none
  cover_image_url : Option String := none
deriving DecidableEq

/-- Input schema `InventoryAdjustment` (`app/schemas.py`): a signed delta and
optional notes. -/
structure InventoryAdjustment where
  quantity_change : Int
  notes : Option String
deriving DecidableEq

/-- The availability summary attached to each book by
`BookService.get_books_with_availability` (`app/services.py` 298-309). -/
structure Availability where
  quantity_available : Int
  in_stock : Bool
  low_stock : Bool
deriving DecidableEq

/-- The filter `and_(Book.id == str(book_id), Book.is_active == True)` used by
`BookService.get_book_by_id` (`app/services.py` 408-410). -/
def activeWithId (bid : Nat) (b : Book) : Bool :=
  b.id == bid && b.is_active

/-- `BookService.get_book_by_id` (`app/services.py` 326-410): first row whose
id matches and which is active. -/
def get_book_by_id (db : DbState) (bid : Nat) : Option Book :=
  db.books.find? (activeWithId bid)

/-- `BookService.create_book` (`app/services.py` 542-566): insert the new
book and, in the same transaction, a zero-stock inventory record whose
reorder point is the configured threshold. -/
def create_book (db : DbState) (book_data : BookCreate) : Book × DbState :=
  let book : Book :=
    { id := db.nextId
      title := book_data.title
      subtitle := book_data.subtitle
      authors := book_data.authors
      genres := book_data.genres
      description := book_data.description
      price := book_data.price
      cover_image_url := book_data.cover_image_url
      rating := none
      created_at := db.now
      updated_at := db.now
      is_active := true }
  let inventory : InventoryRecord :=
    { id := db.nextId + 1
      book_id := book.id
      quantity_available := 0
      quantity_total := 0
      reorder_point := LOW_STOCK_THRESHOLD
      created_at := db.now
      updated_at := db.now }
  (book,
    { db with
        books := db.books ++ [book]
        inventory := db.inventory ++ [inventory]
        nextId := db.nextId + 2
        now := db.now + 1 })

/-- Mutation of the ORM object found by `get_book_by_id`: apply `f` to the
first book that is active with the given id, leaving the rest alone. -/
def updateFirstActive (bid : Nat) (f : Book → Book) : List Book → List Book
  | [] => []
  | b :: rest =>
    if activeWithId bid b then f b :: rest
    else b :: updateFirstActive bid f rest

/-- Field-wise application of a partial update (`app/services.py` 702-704):
only fields present in the payload are overwritten; `updated_at` is
stamped (`app/services.py` 707). -/
def applyUpdate (bd : BookUpdate) (now : Nat) (b : Book) : Book :=
  { b with
      title := bd.title.getD b.title
      subtitle := match bd.subtitle with
        | some s => some s
        | none => b.subtitle
      authors := bd.authors.getD b.authors
      genres := bd.genres.getD b.genres
      description := bd.description.getD b.description
      price := bd.price.getD b.price
      cover_image_url := bd.cover_image_url.getD b.cover_image_url
      updated_at := now }

/-- `BookService.update_book` (`app/services.py` 569-713): look the book up,
return `none` if absent or inactive, otherwise apply the partial update. -/
def update_book (db : DbState) (bid : Nat) (book_data : BookUpdate) :
    Option Book × DbState :=
  match get_book_by_id db bid with
  | none => (none, db)
  | some b =>
    let b2 := applyUpdate book_data db.now b
    (some b2,
      { db with
          books := updateFirstActive bid (fun _ => b2) db.books
          now := db.now + 1 })

/-- `BookService.delete_book` (`app/services.py` 846-858): soft delete — flip
`is_active` to false on the found book and stamp `updated_at`; `false` when
the book is absent or already inactive. -/
def delete_book (db : DbState) (bid : Nat) : Bool × DbState :=
  match get_book_by_id db bid with
  | none => (false, db)
  | some _ =>
    (true,
      { db with
          books := updateFirstActive bid
            (fun b => { b with is_active := false, updated_at := db.now }) db.books
          now := db.now + 1 })

/-- The per-book inventory lookup
`db.query(InventoryRecord).filter(InventoryRecord.book_id == ...)` used by
both the availability aggregation and `adjust_inventory`. -/
def lookupInventory (db : DbState) (bid : Nat) : Option InventoryRecord :=
  db.inventory.find? (fun inv => inv.book_id == bid)

/-- The availability summary built at `app/services.py` 296-309: real record
data when one exists, the `{0, false, true}` fallback otherwise. -/
def availabilityFor (inv : Option InventoryRecord) : Availability :=
  match inv with
  | some inventory =>
    { quantity_available := inventory.quantity_available
      in_stock := inventory.quantity_available > 0
      low_stock := inventory.quantity_available ≤ inventory.reorder_point }
  | none =>
    { quantity_available := 0
      in_stock := false
      low_stock := true }

/-- `BookService.get_books_with_availability` (`app/services.py` 164-323):
filter to active books unless `include_inactive`, count, paginate with
offset/limit, and attach an availability summary per book. The Python code
returns each book as a dict of its columns plus `availability`; here the row
is the pair of the book and its summary. -/
def get_books_with_availability (db : DbState) (skip limit : Nat)
    (include_inactive : Bool) : List (Book × Availability) × Nat :=
  let query := if include_inactive then db.books
               else db.books.filter (fun b => b.is_active)
  let total := query.length
  let books := (query.drop skip).take limit
  (books.map (fun b => (b, availabilityFor (lookupInventory db b.id))), total)

/-- The low-stock filter `quantity_available <= reorder_point`
(`app/services.py` 977-980). -/
def lowStockPred (inv : InventoryRecord) : Bool :=
  inv.quantity_available ≤ inv.reorder_point

/-- The join of `InventoryRecord` with active `Book` rows on
`InventoryRecord.book_id == Book.id` (`app/services.py` 973-975). -/
def inventoryJoin (db : DbState) : List (InventoryRecord × Book) :=
  db.inventory.flatMap (fun inv =>
    (db.books.filter (fun b => inv.book_id == b.id && b.is_active)).map
      (fun b => (inv, b)))

/-- The query of `InventoryService.get_inventory_list` before pagination:
the join, restricted to low-stock rows when `low_stock_only`. -/
def inventoryQuery (db : DbState) (low_stock_only : Bool) :
    List (InventoryRecord × Book) :=
  if low_stock_only then (inventoryJoin db).filter (fun p => lowStockPred p.1)
  else inventoryJoin db

/-- `InventoryService.get_inventory_list` (`app/services.py` 965-1014):
count the filtered join, then return the offset/limit window. The Python
code emits a dict with an `inventory` and a `book` sub-dict per row; here the
row is the pair. -/
def get_inventory_list (db : DbState) (skip limit : Nat)
    (low_stock_only : Bool) : List (InventoryRecord × Book) × Nat :=
  ((( inventoryQuery db low_stock_only).drop skip).take limit,
   (inventoryQuery db low_stock_only).length)

/-- The in-memory zero-stock record materialized by
`InventoryService.adjust_inventory` when no row exists
(`app/services.py` 1068-1076). -/
def freshInventory (db : DbState) (bid : Nat) : InventoryRecord :=
  { id := db.nextId
    book_id := bid
    quantity_available := 0
    quantity_total := 0
    reorder_point := LOW_STOCK_THRESHOLD
    created_at := db.now
    updated_at := db.now }

/-- The record `adjust_inventory` works on: the looked-up row when present,
the freshly materialized zero-stock record otherwise. -/
def currentInventory (db : DbState) (bid : Nat) : InventoryRecord :=
  (lookupInventory db bid).getD (freshInventory db bid)

/-- Mutation of the ORM object found by the inventory lookup: set the new
quantities and stamp `updated_at` on the first record with the given
`book_id`, leaving the rest alone (`app/services.py` 1105-1107). -/
def applyAdjust (bid : Nat) (na nt : Int) (now : Nat) :
    List InventoryRecord → List InventoryRecord
  | [] => []
  | inv :: rest =>
    if inv.book_id == bid then
      { inv with quantity_available := na, quantity_total := nt,
                 updated_at := now } :: rest
    else inv :: applyAdjust bid na nt now rest

/-- `InventoryService.adjust_inventory` (`app/services.py` 1055-1118):
look up (or materialize) the record, compute both new quantities, reject with
no side effect if either would be negative, otherwise classify the
transaction by the sign of the delta, persist the updated record and append
the new transaction in one commit. -/
def adjust_inventory (db : DbState) (bid : Nat) (adj : InventoryAdjustment) :
    Option StockTransaction × DbState :=
  let inventory := currentInventory db bid
  let new_available := inventory.quantity_available + adj.quantity_change
  let new_total := inventory.quantity_total + adj.quantity_change
  if new_available < 0 then (none, db)
  else if new_total < 0 then (none, db)
  else
    let transaction_type :=
      if adj.quantity_change > 0 then "stock_in"
      else if adj.quantity_change < 0 then "stock_out"
      else "adjustment"
    let transaction : StockTransaction :=
      { id := db.nextId + 1
        book_id := bid
        transaction_type := transaction_type
        quantity_change := adj.quantity_change
        notes := adj.notes
        timestamp := db.now }
    let updated := { inventory with
      quantity_available := new_available
      quantity_total := new_total
      updated_at := db.now }
    let newInventory :=
      if (lookupInventory db bid).isNone then db.inventory ++ [updated]
      else applyAdjust bid new_available new_total db.now db.inventory
    (some transaction,
      { db with
          inventory := newInventory
          transactions := db.transactions ++ [transaction]
          nextId := db.nextId + 2
          now := db.now + 1 })

/-- The `ORDER BY timestamp DESC` relation of
`TransactionService.get_transactions` (`app/services.py` 1260). -/
def tsDesc (a b : StockTransaction) : Prop :=
  b.timestamp ≤ a.timestamp

instance : DecidableRel tsDesc :=
  fun a b => Nat.decLe b.timestamp a.timestamp

instance : IsTotal StockTransaction tsDesc :=
  ⟨fun a b => Nat.le_total b.timestamp a.timestamp⟩

instance : IsTrans StockTransaction tsDesc :=
  ⟨fun _ _ _ h1 h2 => Nat.le_trans h2 h1⟩

/-- The query of `TransactionService.get_transactions` before pagination:
optionally filtered to one book, then ordered by timestamp descending. -/
def transactionQuery (db : DbState) (bid : Option Nat) :
    List StockTransaction :=
  let query : List StockTransaction := match bid with
    | some b => db.transactions.filter (fun t => t.book_id == b)
    | none => db.transactions
  query.insertionSort tsDesc

/-- `TransactionService.get_transactions` (`app/services.py` 1247-1266):
count the (filtered) query, return the offset/limit window of the ordered
rows. -/
def get_transactions (db : DbState) (bid : Option Nat) (skip limit : Nat) :
    List StockTransaction × Nat :=
  (((transactionQuery db bid).drop skip).take limit,
   (transactionQuery db bid).length)

end BookVerse

namespace BookVerse

/-- A concrete valid book input used in concrete evaluations. -/
def sampleBookCreate : BookCreate :=
  { title := "Dune"
    subtitle := none
    authors := ["Frank Herbert"]
    genres := ["scifi"]
    description := "classic"
    price := 999
    cover_image_url := "http://img" }

/-- The state after creating one book in the empty database. -/
def db1 : DbState := (create_book DbState.empty sampleBookCreate).2

example : (adjust_inventory db1 0 ⟨50, some "restock"⟩).1 =
    some ⟨3, 0, "stock_in", 50, some "restock", 1⟩ := by decide

def db2 : DbState := (adjust_inventory db1 0 ⟨50, some "restock"⟩).2

example : (adjust_inventory db2 0 ⟨-3, some "sale"⟩).1 =
    some ⟨5, 0, "stock_out", -3, some "sale", 2⟩ := by decide

def db3 : DbState := (adjust_inventory db2 0 ⟨-3, some "sale"⟩).2

example : (currentInventory db3 0).quantity_available = 47 := by decide
example : adjust_inventory db3 0 ⟨-100, some "bad"⟩ = (none, db3) := by decide
example : db3.transactions.length = 2 := by decide
example : (adjust_inventory db3 0 ⟨0, none⟩).1 =
    some ⟨7, 0, "adjustment", 0, none, 3⟩ := by decide
example : (get_books_with_availability db3 0 20 false).1 =
    [((create_book DbState.empty sampleBookCreate).1,
      ⟨47, true, false⟩)] := by decide
example : (get_books_with_availability DbState.empty 0 20 false) = ([], 0) := by decide
example : delete_book db1 0 = (true, { db1 with
    books := [{ (create_book DbState.empty sampleBookCreate).1 with
                is_active := false, updated_at := db1.now }],
    now := db1.now + 1 }) := by decide
example : delete_book (delete_book db1 0).2 0 = (false, (delete_book db1 0).2) := by decide
example : (get_inventory_list db1 0 20 true).2 = 1 := by decide
example : (get_transactions db3 (some 0) 0 20).1.map (fun t => t.timestamp) = [2, 1] := by decide

end BookVerse

namespace BookVerse

/-- Claim C1: for every inventory state and every adjustment request, if
`current_available + quantityChange < 0` or `current_total + quantityChange
< 0`, then `adjust_inventory` returns no transaction and has zero side
effects: the whole database state, including the inventory table and the
transaction log, is returned unchanged (a lazily materialized record is
never persisted). -/
theorem adjust_rejected_no_side_effects (db : DbState) (bid : Nat)
    (adj : InventoryAdjustment)
    (h : (currentInventory db bid).quantity_available + adj.quantity_change < 0 ∨
         (currentInventory db bid).quantity_total + adj.quantity_change < 0) :
    adjust_inventory db bid adj = (none, db) := by
  rcases h with h | h
  · simp [adjust_inventory, h]
  · by_cases h1 :
      (currentInventory db bid).quantity_available + adj.quantity_change < 0
    · simp [adjust_inventory, h1]
    · simp [adjust_inventory, h1, h]

/-- Witness for C1 at the spec §8 scenario: after stocking 50 and selling 3,
an adjustment of -100 is rejected with the state unchanged. -/
theorem adjust_rejected_no_side_effects_witness :
    adjust_inventory db3 0 ⟨-100, some "bad"⟩ = (none, db3) :=
  adjust_rejected_no_side_effects db3 0 ⟨-100, some "bad"⟩ (Or.inl (by decide))

/-- Claim C3: every transaction created by `adjust_inventory` carries
`transaction_type` equal to "stock_in" iff its delta is positive,
"stock_out" iff negative, and "adjustment" iff zero; the three cases are
exhaustive and mutually exclusive because the three biconditionals cover a
trichotomy on the sign of the delta. -/
theorem transaction_type_matches_sign (db : DbState) (bid : Nat)
    (adj : InventoryAdjustment) (t : StockTransaction)
    (h : (adjust_inventory db bid adj).1 = some t) :
    (t.transaction_type = "stock_in" ↔ 0 < t.quantity_change) ∧
    (t.transaction_type = "stock_out" ↔ t.quantity_change < 0) ∧
    (t.transaction_type = "adjustment" ↔ t.quantity_change = 0) := by
  simp only [adjust_inventory] at h
  split at h
  · simp at h
  · split at h
    · simp at h
    · simp only [Option.some.injEq] at h
      subst h
      rcases lt_trichotomy (0 : Int) adj.quantity_change with hpos | hzero | hneg
      · simp [hpos, not_lt.mpr (le_of_lt hpos), ne_of_gt hpos]
      · simp [← hzero]
      · simp [hneg, not_lt.mpr (le_of_lt hneg), ne_of_lt hneg,
          lt_asymm hneg]

/-- Witness for C3: the restock transaction of the spec §8 scenario is
classified "stock_in" exactly because its delta 50 is positive. -/
theorem transaction_type_matches_sign_witness :
    ((⟨3, 0, "stock_in", 50, some "restock", 1⟩ :
        StockTransaction).transaction_type = "stock_in" ↔
      (0 : Int) < 50) ∧
    ((⟨3, 0, "stock_in", 50, some "restock", 1⟩ :
        StockTransaction).transaction_type = "stock_out" ↔
      (50 : Int) < 0) ∧
    ((⟨3, 0, "stock_in", 50, some "restock", 1⟩ :
        StockTransaction).transaction_type = "adjustment" ↔
      (50 : Int) = 0) :=
  transaction_type_matches_sign db1 0 ⟨50, some "restock"⟩ _ (by decide)

end BookVerse

namespace BookVerse

/-- Mutating the record found by the inventory lookup leaves it findable,
with the new quantities, under the same lookup. -/
theorem find?_applyAdjust (bid : Nat) (na nt : Int) (now : Nat)
    (l : List InventoryRecord) (inv : InventoryRecord)
    (h : l.find? (fun r => r.book_id == bid) = some inv) :
    (applyAdjust bid na nt now l).find? (fun r => r.book_id == bid) =
      some { inv with quantity_available := na, quantity_total := nt,
                      updated_at := now } := by
  induction l with
  | nil => simp at h
  | cons r rest ih =>
    by_cases hr : (r.book_id == bid) = true
    · rw [List.find?_cons_of_pos (p := fun x : InventoryRecord => x.book_id == bid)
        rest hr] at h
      simp only [Option.some.injEq] at h
      subst h
      simp only [applyAdjust, if_pos hr]
      exact List.find?_cons_of_pos (p := fun x : InventoryRecord => x.book_id == bid)
        _ hr
    · rw [List.find?_cons_of_neg (p := fun x : InventoryRecord => x.book_id == bid)
        rest hr] at h
      simp only [applyAdjust, if_neg hr]
      rw [List.find?_cons_of_neg (p := fun x : InventoryRecord => x.book_id == bid)
        _ hr]
      exact ih h

/-- Appending a matching record to a list in which the lookup fails makes
the lookup return that record. -/
theorem find?_append_single {α : Type} (p : α → Bool) (l : List α) (x : α)
    (hl : l.find? p = none) (hx : p x = true) :
    (l ++ [x]).find? p = some x := by
  rw [List.find?_append, hl]
  simp [List.find?, hx]

/-- Claim C2: every accepted adjustment (neither new quantity negative) adds
the same delta to `quantity_available` and `quantity_total`, and appends
exactly one transaction to the log, whose `quantity_change` is the requested
delta and whose notes are the supplied notes. (Rejected calls append none:
that is the `adjust_rejected_no_side_effects` direction of C1, whose state
equation covers the transaction log.) -/
theorem adjust_accepted_updates (db : DbState) (bid : Nat)
    (adj : InventoryAdjustment)
    (h1 : 0 ≤ (currentInventory db bid).quantity_available + adj.quantity_change)
    (h2 : 0 ≤ (currentInventory db bid).quantity_total + adj.quantity_change) :
    ∃ t, (adjust_inventory db bid adj).1 = some t ∧
      t.quantity_change = adj.quantity_change ∧
      t.notes = adj.notes ∧
      (adjust_inventory db bid adj).2.transactions = db.transactions ++ [t] ∧
      lookupInventory (adjust_inventory db bid adj).2 bid = some
        { currentInventory db bid with
            quantity_available :=
              (currentInventory db bid).quantity_available + adj.quantity_change
            quantity_total :=
              (currentInventory db bid).quantity_total + adj.quantity_change
            updated_at := db.now } := by
  have hna := not_lt.mpr h1
  have hnt := not_lt.mpr h2
  refine ⟨{ id := db.nextId + 1
            book_id := bid
            transaction_type :=
              if adj.quantity_change > 0 then "stock_in"
              else if adj.quantity_change < 0 then "stock_out"
              else "adjustment"
            quantity_change := adj.quantity_change
            notes := adj.notes
            timestamp := db.now }, ?_, rfl, rfl, ?_, ?_⟩
  · simp only [adjust_inventory, if_neg hna, if_neg hnt]
  · simp only [adjust_inventory, if_neg hna, if_neg hnt]
  · cases hl : lookupInventory db bid with
    | none =>
      have hl2 : List.find? (fun inv => inv.book_id == bid) db.inventory =
          none := hl
      have hx : (adjust_inventory db bid adj).2.inventory =
          db.inventory ++
            [{ currentInventory db bid with
                quantity_available :=
                  (currentInventory db bid).quantity_available +
                    adj.quantity_change
                quantity_total :=
                  (currentInventory db bid).quantity_total +
                    adj.quantity_change
                updated_at := db.now }] := by
        simp [adjust_inventory, if_neg hna, if_neg hnt, lookupInventory, hl2]
      simp only [lookupInventory, hx]
      refine find?_append_single _ _ _ hl2 ?_
      simp [currentInventory, lookupInventory, hl2, freshInventory]
    | some inv =>
      have hl2 : List.find? (fun r => r.book_id == bid) db.inventory =
          some inv := hl
      have hcur : currentInventory db bid = inv := by
        simp [currentInventory, hl]
      have hx : (adjust_inventory db bid adj).2.inventory =
          applyAdjust bid
            ((currentInventory db bid).quantity_available + adj.quantity_change)
            ((currentInventory db bid).quantity_total + adj.quantity_change)
            db.now db.inventory := by
        simp [adjust_inventory, if_neg hna, if_neg hnt, lookupInventory, hl2]
      simp only [lookupInventory, hx, hcur]
      exact find?_applyAdjust bid _ _ db.now db.inventory inv hl2

/-- Witness for C2 at the spec §8 scenario: the restock of 50 on the freshly
created book is accepted, moves both quantities from 0 to 50, and appends
exactly the one "stock_in" transaction. -/
theorem adjust_accepted_updates_witness :
    ∃ t, (adjust_inventory db1 0 ⟨50, some "restock"⟩).1 = some t ∧
      t.quantity_change = (50 : Int) ∧
      t.notes = some "restock" ∧
      (adjust_inventory db1 0 ⟨50, some "restock"⟩).2.transactions =
        db1.transactions ++ [t] ∧
      lookupInventory (adjust_inventory db1 0 ⟨50, some "restock"⟩).2 0 = some
        { currentInventory db1 0 with
            quantity_available :=
              (currentInventory db1 0).quantity_available + (50 : Int)
            quantity_total :=
              (currentInventory db1 0).quantity_total + (50 : Int)
            updated_at := db1.now } :=
  adjust_accepted_updates db1 0 ⟨50, some "restock"⟩ (by decide) (by decide)

/-- Claim C8: when no inventory record exists for the book id, an accepted
adjustment materializes the zero-stock record (reorder point = configured
threshold) and applies the delta to it; the last conjunct shows the books
table is never consulted, so no existing active Book row is required. -/
theorem adjust_materializes_missing_record (db : DbState) (bid : Nat)
    (adj : InventoryAdjustment)
    (hnone : lookupInventory db bid = none)
    (hacc : 0 ≤ adj.quantity_change) :
    (adjust_inventory db bid adj).1.isSome = true ∧
    (adjust_inventory db bid adj).2.inventory =
      db.inventory ++
        [{ id := db.nextId
           book_id := bid
           quantity_available := adj.quantity_change
           quantity_total := adj.quantity_change
           reorder_point := LOW_STOCK_THRESHOLD
           created_at := db.now
           updated_at := db.now }] ∧
    ∀ bs : List Book,
      adjust_inventory { db with books := bs } bid adj =
        ((adjust_inventory db bid adj).1,
         { (adjust_inventory db bid adj).2 with books := bs }) := by
  have hcur : currentInventory db bid = freshInventory db bid := by
    simp [currentInventory, hnone]
  have hna : ¬ ((currentInventory db bid).quantity_available +
      adj.quantity_change < 0) := by
    rw [hcur]; simp [freshInventory]; omega
  have hnt : ¬ ((currentInventory db bid).quantity_total +
      adj.quantity_change < 0) := by
    rw [hcur]; simp [freshInventory]; omega
  refine ⟨?_, ?_, ?_⟩
  · simp only [adjust_inventory, if_neg hna, if_neg hnt, Option.isSome_some]
  · simp only [adjust_inventory, if_neg hna, if_neg hnt, hnone,
      Option.isNone_none, if_pos]
    rw [hcur]
    simp [freshInventory]
  · intro bs
    have hcur2 : currentInventory { db with books := bs } bid =
        currentInventory db bid := rfl
    have hl2 : lookupInventory { db with books := bs } bid =
        lookupInventory db bid := rfl
    simp only [adjust_inventory, hcur2, hl2, if_neg hna, if_neg hnt]

/-- Witness for C8: adjusting a book id with no inventory record in a state
whose catalog does not contain it either. -/
theorem adjust_materializes_missing_record_witness :
    (adjust_inventory DbState.empty 9 ⟨5, none⟩).1.isSome = true ∧
    (adjust_inventory DbState.empty 9 ⟨5, none⟩).2.inventory =
      DbState.empty.inventory ++
        [{ id := DbState.empty.nextId
           book_id := 9
           quantity_available := (5 : Int)
           quantity_total := (5 : Int)
           reorder_point := LOW_STOCK_THRESHOLD
           created_at := DbState.empty.now
           updated_at := DbState.empty.now }] ∧
    ∀ bs : List Book,
      adjust_inventory { DbState.empty with books := bs } 9 ⟨5, none⟩ =
        ((adjust_inventory DbState.empty 9 ⟨5, none⟩).1,
         { (adjust_inventory DbState.empty 9 ⟨5, none⟩).2 with books := bs }) :=
  adjust_materializes_missing_record DbState.empty 9 ⟨5, none⟩ (by decide)
    (by decide)

end BookVerse

namespace BookVerse

/-- Claim C4: creating a book appends the new book row and, in the same
atomic step of the transition function, exactly one inventory record for
that book, zero-stock with the configured reorder point; the transaction
log is untouched. The freshness hypothesis models uuid4 uniqueness: the
generated book id collides with no stored `book_id`. -/
theorem create_book_provisions_zero_inventory (db : DbState) (bd : BookCreate)
    (hfresh : ∀ inv ∈ db.inventory, inv.book_id ≠ db.nextId) :
    (create_book db bd).2.books = db.books ++ [(create_book db bd).1] ∧
    (create_book db bd).1.id = db.nextId ∧
    (∃ inv, (create_book db bd).2.inventory.filter
        (fun r => r.book_id == (create_book db bd).1.id) = [inv] ∧
      inv.book_id = (create_book db bd).1.id ∧
      inv.quantity_available = 0 ∧ inv.quantity_total = 0 ∧
      inv.reorder_point = LOW_STOCK_THRESHOLD) ∧
    (create_book db bd).2.transactions = db.transactions := by
  refine ⟨rfl, rfl, ?_, rfl⟩
  have hnil : db.inventory.filter (fun r => r.book_id == db.nextId) = [] := by
    rw [List.filter_eq_nil_iff]
    intro r hr
    simp [hfresh r hr]
  refine ⟨{ id := db.nextId + 1
            book_id := db.nextId
            quantity_available := 0
            quantity_total := 0
            reorder_point := LOW_STOCK_THRESHOLD
            created_at := db.now
            updated_at := db.now }, ?_, rfl, rfl, rfl, rfl⟩
  show (db.inventory ++
      [({ id := db.nextId + 1
          book_id := db.nextId
          quantity_available := 0
          quantity_total := 0
          reorder_point := LOW_STOCK_THRESHOLD
          created_at := db.now
          updated_at := db.now } : InventoryRecord)]).filter
    (fun r : InventoryRecord => r.book_id == db.nextId) = _
  rw [List.filter_append, hnil]
  simp

/-- Witness for C4 at a state that already has one book and its inventory
record (so the filter genuinely screens out older rows). -/
theorem create_book_provisions_zero_inventory_witness :
    (create_book db1 sampleBookCreate).2.books =
      db1.books ++ [(create_book db1 sampleBookCreate).1] ∧
    (create_book db1 sampleBookCreate).1.id = db1.nextId ∧
    (∃ inv, (create_book db1 sampleBookCreate).2.inventory.filter
        (fun r => r.book_id == (create_book db1 sampleBookCreate).1.id) = [inv] ∧
      inv.book_id = (create_book db1 sampleBookCreate).1.id ∧
      inv.quantity_available = 0 ∧ inv.quantity_total = 0 ∧
      inv.reorder_point = LOW_STOCK_THRESHOLD) ∧
    (create_book db1 sampleBookCreate).2.transactions = db1.transactions :=
  create_book_provisions_zero_inventory db1 sampleBookCreate (by decide)

/-- Claim C6: the low-stock flag has an inclusive boundary. In the
availability summary of `get_books_with_availability`, `low_stock` is true
iff `quantity_available ≤ reorder_point` of the book's record; and a joined
row is selected by `get_inventory_list` with `low_stock_only` iff it is a
row of the plain join satisfying `quantity_available ≤ reorder_point`. -/
theorem low_stock_inclusive_boundary (db : DbState) :
    (∀ (skip limit : Nat) (ii : Bool) (b : Book) (avail : Availability),
      (b, avail) ∈ (get_books_with_availability db skip limit ii).1 →
      ∀ inv, lookupInventory db b.id = some inv →
        (avail.low_stock = true ↔
          inv.quantity_available ≤ inv.reorder_point)) ∧
    (∀ p : InventoryRecord × Book,
      p ∈ inventoryQuery db true ↔
        p ∈ inventoryQuery db false ∧
          p.1.quantity_available ≤ p.1.reorder_point) := by
  constructor
  · intro skip limit ii b avail hmem inv hinv
    simp only [get_books_with_availability, List.mem_map] at hmem
    obtain ⟨a, _, heq⟩ := hmem
    obtain ⟨hb, havail⟩ := Prod.mk.injEq .. ▸ heq
    subst hb
    rw [← havail, hinv]
    simp [availabilityFor]
  · intro p
    simp [inventoryQuery, List.mem_filter, lowStockPred]

/-- Witness for C6: the restocked book of the §8 scenario (47 available,
reorder point 5) is in the join but not selected by the low-stock filter. -/
theorem low_stock_inclusive_boundary_witness :
    ((⟨1, 0, 47, 47, 5, 0, 2⟩ : InventoryRecord),
        (create_book DbState.empty sampleBookCreate).1) ∈
        inventoryQuery db3 true ↔
      ((⟨1, 0, 47, 47, 5, 0, 2⟩ : InventoryRecord),
        (create_book DbState.empty sampleBookCreate).1) ∈
        inventoryQuery db3 false ∧
      (47 : Int) ≤ 5 :=
  (low_stock_inclusive_boundary db3).2 _

/-- Claim C7: in the output of `get_books_with_availability`, a book with no
inventory record carries exactly the fallback summary
`{quantity_available := 0, in_stock := false, low_stock := true}`, and a
book with a record has `in_stock` true iff its available quantity is
positive. -/
theorem availability_fallback_and_in_stock (db : DbState) :
    ∀ (skip limit : Nat) (ii : Bool) (b : Book) (avail : Availability),
      (b, avail) ∈ (get_books_with_availability db skip limit ii).1 →
      (lookupInventory db b.id = none →
        avail = { quantity_available := 0, in_stock := false,
                  low_stock := true }) ∧
      (∀ inv, lookupInventory db b.id = some inv →
        (avail.in_stock = true ↔ 0 < inv.quantity_available)) := by
  intro skip limit ii b avail hmem
  simp only [get_books_with_availability, List.mem_map] at hmem
  obtain ⟨a, _, heq⟩ := hmem
  obtain ⟨hb, havail⟩ := Prod.mk.injEq .. ▸ heq
  subst hb
  constructor
  · intro hnone
    rw [← havail, hnone]
    rfl
  · intro inv hinv
    rw [← havail, hinv]
    simp [availabilityFor]

/-- Witness for C7: the book of the §8 scenario, in a state stripped of its
inventory record, reports the `{0, false, true}` fallback. -/
theorem availability_fallback_and_in_stock_witness :
    (⟨0, false, true⟩ : Availability) =
      { quantity_available := 0, in_stock := false, low_stock := true } :=
  (availability_fallback_and_in_stock { db1 with inventory := [] }
    0 20 false (create_book DbState.empty sampleBookCreate).1 ⟨0, false, true⟩
    (by decide)).1 (by decide)

end BookVerse

namespace BookVerse

/-- After deactivating the first active book with the given id in a list of
pairwise-distinct ids, no active book with that id remains findable. -/
theorem find?_deactivated_none (bid now : Nat) :
    ∀ l : List Book, (l.map Book.id).Nodup →
      ∀ b, l.find? (activeWithId bid) = some b →
      ((updateFirstActive bid
          (fun x => { x with is_active := false, updated_at := now }) l).find?
        (activeWithId bid)) = none := by
  intro l
  induction l with
  | nil =>
    intro _ b hb
    simp at hb
  | cons x rest ih =>
    intro hnodup b hb
    simp only [List.map_cons, List.nodup_cons] at hnodup
    by_cases hx : activeWithId bid x = true
    · have hid : x.id = bid := by
        have := hx
        simp [activeWithId] at this
        exact this.1
      simp only [updateFirstActive, if_pos hx]
      rw [List.find?_cons_of_neg]
      · rw [List.find?_eq_none]
        intro y hy
        by_cases hyid : y.id = bid
        · exfalso
          apply hnodup.1
          rw [hid, ← hyid]
          exact List.mem_map_of_mem Book.id hy
        · simp [activeWithId, hyid]
      · simp [activeWithId]
    · simp only [updateFirstActive, if_neg hx]
      rw [List.find?_cons_of_neg _ hx] at hb
      rw [List.find?_cons_of_neg _ hx]
      exact ih hnodup.2 b hb

/-- Claim C9: with pairwise-distinct book ids (the primary-key constraint),
`delete_book` returns false and leaves the state unchanged when the book is
absent or already inactive, and returns true on an active book; after a
successful delete the book is no longer returned by `get_book_by_id`, so a
second delete of the same id returns false. -/
theorem soft_delete_idempotent (db : DbState) (bid : Nat)
    (hnodup : (db.books.map Book.id).Nodup) :
    (get_book_by_id db bid = none → delete_book db bid = (false, db)) ∧
    (∀ b, get_book_by_id db bid = some b →
      (delete_book db bid).1 = true ∧
      get_book_by_id (delete_book db bid).2 bid = none ∧
      delete_book (delete_book db bid).2 bid =
        (false, (delete_book db bid).2)) := by
  constructor
  · intro h
    simp [delete_book, h]
  · intro b hb
    have h1 : (delete_book db bid).1 = true := by
      simp [delete_book, hb]
    have hbooks : (delete_book db bid).2.books =
        updateFirstActive bid
          (fun x => { x with is_active := false, updated_at := db.now })
          db.books := by
      simp [delete_book, hb]
    have h2 : get_book_by_id (delete_book db bid).2 bid = none := by
      unfold get_book_by_id
      rw [hbooks]
      exact find?_deactivated_none bid db.now db.books hnodup b hb
    refine ⟨h1, h2, ?_⟩
    generalize hs : (delete_book db bid).2 = s at h2 ⊢
    simp [delete_book, h2]

/-- Witness for C9: deleting the freshly created book succeeds once, hides
it from `get_book_by_id`, and fails (with unchanged state) the second time. -/
theorem soft_delete_idempotent_witness :
    (delete_book db1 0).1 = true ∧
    get_book_by_id (delete_book db1 0).2 0 = none ∧
    delete_book (delete_book db1 0).2 0 = (false, (delete_book db1 0).2) :=
  (soft_delete_idempotent db1 0 (by decide)).2
    (create_book DbState.empty sampleBookCreate).1 (by decide)

/-- Claim C10: the rows returned by `get_transactions` are ordered by
timestamp descending (every row is at least as recent as the next), and
when a book id is supplied both the returned window and the total count
range over that book's transactions only. -/
theorem transactions_sorted_desc_filtered (db : DbState) (bidOpt : Option Nat)
    (skip limit : Nat) :
    List.Sorted tsDesc (get_transactions db bidOpt skip limit).1 ∧
    ∀ bid, bidOpt = some bid →
      (∀ t ∈ (get_transactions db bidOpt skip limit).1, t.book_id = bid) ∧
      (get_transactions db bidOpt skip limit).2 =
        (db.transactions.filter (fun t => t.book_id == bid)).length := by
  have hsorted : List.Sorted tsDesc (transactionQuery db bidOpt) := by
    unfold transactionQuery
    exact List.sorted_insertionSort tsDesc _
  constructor
  · exact List.Pairwise.sublist
      ((List.take_sublist _ _).trans (List.drop_sublist _ _)) hsorted
  · intro bid hbid
    subst hbid
    constructor
    · intro t ht
      have h1 : t ∈ transactionQuery db (some bid) :=
        ((List.take_sublist _ _).trans (List.drop_sublist _ _)).subset ht
      have h2 : t ∈ db.transactions.filter (fun t => t.book_id == bid) :=
        (List.perm_insertionSort tsDesc
          (db.transactions.filter (fun t => t.book_id == bid))).mem_iff.mp h1
      have h3 := (List.mem_filter.mp h2).2
      simpa using h3
    · exact (List.perm_insertionSort tsDesc _).length_eq

/-- Witness for C10: the total for book 0 in the §8 scenario state equals
the number of its transactions. -/
theorem transactions_sorted_desc_filtered_witness :
    (get_transactions db3 (some 0) 0 20).2 =
      (db3.transactions.filter (fun t => t.book_id == 0)).length :=
  ((transactions_sorted_desc_filtered db3 (some 0) 0 20).2 0 rfl).2

end BookVerse

namespace BookVerse

/-- The inventory table is untouched by `update_book`. -/
theorem update_book_inventory_unchanged (db : DbState) (bid : Nat)
    (bd : BookUpdate) : (update_book db bid bd).2.inventory = db.inventory := by
  unfold update_book
  cases get_book_by_id db bid <;> rfl

/-- The inventory table is untouched by `delete_book`. -/
theorem delete_book_inventory_unchanged (db : DbState) (bid : Nat) :
    (delete_book db bid).2.inventory = db.inventory := by
  unfold delete_book
  cases get_book_by_id db bid <;> rfl

/-- Every record of `applyAdjust`'s output is either an untouched record of
the input or carries exactly the new quantities. -/
theorem mem_applyAdjust (bid : Nat) (na nt : Int) (now : Nat) :
    ∀ (l : List InventoryRecord) (r : InventoryRecord),
      r ∈ applyAdjust bid na nt now l →
      r ∈ l ∨ (r.quantity_available = na ∧ r.quantity_total = nt) := by
  intro l
  induction l with
  | nil =>
    intro r hr
    simp [applyAdjust] at hr
  | cons x rest ih =>
    intro r hr
    by_cases hx : (x.book_id == bid) = true
    · simp only [applyAdjust, if_pos hx, List.mem_cons] at hr
      rcases hr with hr | hr
      · right
        rw [hr]
        exact ⟨rfl, rfl⟩
      · left
        exact List.mem_cons_of_mem _ hr
    · simp only [applyAdjust, if_neg hx, List.mem_cons] at hr
      rcases hr with hr | hr
      · left
        rw [hr]
        exact List.mem_cons_self _ _
      · rcases ih r hr with h | h
        · left
          exact List.mem_cons_of_mem _ h
        · right
          exact h

/-- The invariant of claim C5: every stored inventory record has
`quantity_available` equal to `quantity_total`. -/
def quantitiesAgree (db : DbState) : Prop :=
  ∀ r ∈ db.inventory, r.quantity_available = r.quantity_total

/-- Any single adjustment preserves the available-equals-total invariant:
a rejected one changes nothing, an accepted one adds the same delta to both
fields of one record or appends a record with both fields equal. -/
theorem adjust_preserves_quantitiesAgree (db : DbState) (bid : Nat)
    (adj : InventoryAdjustment) (hdb : quantitiesAgree db) :
    quantitiesAgree (adjust_inventory db bid adj).2 := by
  by_cases hna :
      (currentInventory db bid).quantity_available + adj.quantity_change < 0
  · have hstate : adjust_inventory db bid adj = (none, db) := by
      simp [adjust_inventory, hna]
    rw [hstate]
    exact hdb
  · by_cases hnt :
        (currentInventory db bid).quantity_total + adj.quantity_change < 0
    · have hstate : adjust_inventory db bid adj = (none, db) := by
        simp [adjust_inventory, hna, hnt]
      rw [hstate]
      exact hdb
    · cases hl : lookupInventory db bid with
      | none =>
        have hcur : currentInventory db bid = freshInventory db bid := by
          simp [currentInventory, hl]
        have hl2 : List.find? (fun inv => inv.book_id == bid) db.inventory =
            none := hl
        have hx : (adjust_inventory db bid adj).2.inventory =
            db.inventory ++
              [{ currentInventory db bid with
                  quantity_available :=
                    (currentInventory db bid).quantity_available +
                      adj.quantity_change
                  quantity_total :=
                    (currentInventory db bid).quantity_total +
                      adj.quantity_change
                  updated_at := db.now }] := by
          simp [adjust_inventory, if_neg hna, if_neg hnt, lookupInventory, hl2]
        intro r hr
        rw [hx] at hr
        rcases List.mem_append.mp hr with h | h
        · exact hdb r h
        · simp only [List.mem_singleton] at h
          subst h
          simp [hcur, freshInventory]
      | some inv =>
        have hcur : currentInventory db bid = inv := by
          simp [currentInventory, hl]
        have hinv : inv ∈ db.inventory := List.mem_of_find?_eq_some hl
        have hagree := hdb inv hinv
        have hl2 : List.find? (fun r => r.book_id == bid) db.inventory =
            some inv := hl
        have hx : (adjust_inventory db bid adj).2.inventory =
            applyAdjust bid
              ((currentInventory db bid).quantity_available +
                adj.quantity_change)
              ((currentInventory db bid).quantity_total + adj.quantity_change)
              db.now db.inventory := by
          simp [adjust_inventory, if_neg hna, if_neg hnt, lookupInventory, hl2]
        intro r hr
        rw [hx] at hr
        rcases mem_applyAdjust _ _ _ _ _ _ hr with h | h
        · exact hdb r h
        · rw [h.1, h.2, hcur, hagree]

/-- The states reachable from the empty database through the service
operations of `BookService` and `InventoryService`. -/
inductive Reachable : DbState → Prop
  | empty : Reachable DbState.empty
  | create (db : DbState) (bd : BookCreate) :
      Reachable db → Reachable (create_book db bd).2
  | update (db : DbState) (bid : Nat) (bd : BookUpdate) :
      Reachable db → Reachable (update_book db bid bd).2
  | softDelete (db : DbState) (bid : Nat) :
      Reachable db → Reachable (delete_book db bid).2
  | adjust (db : DbState) (bid : Nat) (adj : InventoryAdjustment) :
      Reachable db → Reachable (adjust_inventory db bid adj).2

/-- Claim C5: in every state reachable through the service operations,
every stored inventory record has `quantity_available` equal to
`quantity_total` (both start at 0 and every adjustment moves them by the
same delta), and consequently the second negativity check of
`adjust_inventory` is redundant: for any request, the available-quantity
check fails exactly when the total-quantity check fails. -/
theorem reachable_available_eq_total (db : DbState) (h : Reachable db) :
    quantitiesAgree db ∧
    ∀ (bid : Nat) (adj : InventoryAdjustment),
      ((currentInventory db bid).quantity_available + adj.quantity_change < 0 ↔
       (currentInventory db bid).quantity_total + adj.quantity_change < 0) := by
  have hq : quantitiesAgree db := by
    induction h with
    | empty =>
      intro r hr
      simp [DbState.empty] at hr
    | create db bd hdb ih =>
      intro r hr
      simp only [create_book] at hr
      rcases List.mem_append.mp hr with h1 | h1
      · exact ih r h1
      · simp only [List.mem_singleton] at h1
        subst h1
        rfl
    | update db bid bd hdb ih =>
      unfold quantitiesAgree
      rw [update_book_inventory_unchanged]
      exact ih
    | softDelete db bid hdb ih =>
      unfold quantitiesAgree
      rw [delete_book_inventory_unchanged]
      exact ih
    | adjust db bid adj hdb ih =>
      exact adjust_preserves_quantitiesAgree db bid adj ih
  refine ⟨hq, ?_⟩
  intro bid adj
  cases hl : lookupInventory db bid with
  | none =>
    simp [currentInventory, hl, freshInventory]
  | some inv =>
    have hinv : inv ∈ db.inventory := List.mem_of_find?_eq_some hl
    have heq := hq inv hinv
    simp [currentInventory, hl, heq]

/-- Witness for C5: in the one-book reachable state, a request of -3 drives
the available check and the total check to the same verdict. -/
theorem reachable_available_eq_total_witness :
    ((currentInventory db1 7).quantity_available + (-3 : Int) < 0 ↔
     (currentInventory db1 7).quantity_total + (-3 : Int) < 0) :=
  (reachable_available_eq_total db1
    (Reachable.create DbState.empty sampleBookCreate Reachable.empty)).2 7
    ⟨-3, none⟩

end BookVerse
